import Mathlib

/-!
Shallow embedding of the core of `prompt_publication_service`: the dataset
location ledger (`schema.py`), the idempotent ingestion protocol
(`register.py` together with `Database.insert_if_not_exists` from
`database.py`), the policy-table grouping (`config.py`), and the
transfer-and-reconcile protocol (`tasks/transfer.py`).

Conventions of the embedding:
* Dataset UUIDs are modelled as `Nat`, timestamps as `Int` (seconds); a
  `timedelta(hours = h)` is `3600 * h` seconds.
* Each database table is a list of rows; the primary-key uniqueness that the
  database enforces is stated as an explicit hypothesis where a proof needs
  it.  `insert_if_not_exists` (INSERT .. ON CONFLICT DO NOTHING) appends a
  row only when no row with the same primary key is present.
* The external Butler stores are pure functions supplied as parameters;
  SQL sessions become explicit state passing, and a Python exception that
  escapes before the transaction commits becomes an `Except.error` result
  paired with the unchanged ledger state.
-/

namespace PromptPublication

/-- `DatasetOrigin` from `schema.py`: service/process the dataset originated
from.  Only `PROMPT_PROCESSING = 1` exists. -/
inductive DatasetOrigin where
  | PROMPT_PROCESSING
  deriving DecidableEq

/-- `DatasetLocationStatus` from `schema.py`. -/
inductive DatasetLocationStatus where
  | NEVER_PRESENT
  | PRESENT
  | MISSING
  | DELETED
  deriving DecidableEq

/-- A row of the `visit` table (`class Visit` in `schema.py`); primary key
`(visit, instrument)`, `time` nullable. -/
structure VisitRow where
  visit : Int
  instrument : String
  time : Option Int
  deriving DecidableEq

/-- A row of the `dataset` table (`class Dataset` in `schema.py`); primary key
`id`. -/
structure DatasetRow where
  id : Nat
  origin : DatasetOrigin
  dataset_type : String
  instrument : Option String
  visit : Option Int
  embargo_status : DatasetLocationStatus
  prompt_prep_status : DatasetLocationStatus
  repo_main_status : DatasetLocationStatus
  google_int_status : DatasetLocationStatus
  google_prod_status : DatasetLocationStatus
  unembargo_time : Option Int
  deriving DecidableEq

/-- A row of the `unknown_dataset` table (`class UnknownDataset` in
`schema.py`); primary key `id`. -/
structure UnknownDatasetRow where
  id : Nat
  origin : DatasetOrigin
  error : String
  deriving DecidableEq

/-- The state database: the three tables owned by the location ledger. -/
structure LedgerState where
  visit : List VisitRow
  dataset : List DatasetRow
  unknown_dataset : List UnknownDatasetRow
  deriving DecidableEq

/-- Primary key of the `visit` table. -/
def VisitRow.key (v : VisitRow) : Int × String := (v.visit, v.instrument)

/-- `Database.insert_if_not_exists` (`database.py`) applied to one candidate
row: INSERT .. ON CONFLICT DO NOTHING skips the row when an existing row has
the same primary key. -/
def insertRow {ρ κ : Type} [DecidableEq κ] (key : ρ → κ) (t : List ρ) (r : ρ) :
    List ρ :=
  if key r ∈ t.map key then t else t ++ [r]

/-- Executing an `insert_if_not_exists` statement with a list of rows: each
row is inserted unless its primary key already conflicts (also with an
earlier row of the same batch). -/
def insertRows {ρ κ : Type} [DecidableEq κ] (key : ρ → κ) (t : List ρ)
    (rs : List ρ) : List ρ :=
  rs.foldl (insertRow key) t

/-- A Butler `DatasetType` together with the data-ID coordinates a
`DatasetRef` carries: the type's name, its dimension names, and the
`instrument` and `visit` coordinate values (read only when the corresponding
dimension is declared). -/
structure DatasetRef where
  id : Nat
  datasetTypeName : String
  dimensions : List String
  instrument : String
  visit : Int
  deriving DecidableEq

/-- A Butler `visit` dimension record, already reduced to the fields
`_convert_visit_record_to_visit_row` reads: the coordinate and the (already
UTC-normalised) timespan end, `none` when the timespan is absent, open-ended
or empty. -/
structure VisitDimensionRecord where
  visit : Int
  instrument : String
  timespanEnd : Option Int
  deriving DecidableEq

/-- The source Butler, reduced to the two query methods the ingestion
protocol uses: `get_many_datasets` and the visit dimension-record query of
`_get_visit_dimension_records` (keyed by the `(visit, instrument)`
coordinate; `none` when the repository has no such visit). -/
structure SourceButler where
  getManyDatasets : List Nat → List DatasetRef
  visitRecord : Int → String → Option VisitDimensionRecord

/-- `_convert_visit_record_to_visit_row` (`register.py`): the timespan end,
normalised to UTC or `None`, becomes the row's `time`. -/
def convertVisitRecordToVisitRow (record : VisitDimensionRecord) : VisitRow :=
  { instrument := record.instrument, visit := record.visit,
    time := record.timespanEnd }

/-- `_find_matching_visits` (`register.py`): deduplicate the `(visit,
instrument)` coordinates of the refs whose type has a `visit` dimension and
look up their dimension records in the source Butler. -/
def findMatchingVisits (butler : SourceButler) (datasets : List DatasetRef) :
    List VisitDimensionRecord :=
  let coords := ((datasets.filter
      (fun ref => "visit" ∈ ref.dimensions)).map
      (fun ref => (ref.visit, ref.instrument))).dedup
  coords.filterMap (fun c => butler.visitRecord c.1 c.2)

/-- `_convert_ref_to_dataset_row` (`register.py`): build the `dataset` row
for a ref, or raise `NotImplementedError` when the type declares an
`exposure` dimension. -/
def convertRefToDatasetRow (ref : DatasetRef) (origin : DatasetOrigin) :
    Except String DatasetRow :=
  let instrument := if "instrument" ∈ ref.dimensions then some ref.instrument
    else none
  let visit := if "visit" ∈ ref.dimensions then some ref.visit else none
  if "exposure" ∈ ref.dimensions then
    Except.error ("Dataset type '" ++ ref.datasetTypeName ++
      "' with exposure dimensions cannot yet be imported.")
  else
    Except.ok
      { id := ref.id, origin := origin,
        dataset_type := ref.datasetTypeName,
        instrument := instrument, visit := visit,
        embargo_status := DatasetLocationStatus.PRESENT,
        prompt_prep_status := DatasetLocationStatus.NEVER_PRESENT,
        repo_main_status := DatasetLocationStatus.NEVER_PRESENT,
        google_int_status := DatasetLocationStatus.NEVER_PRESENT,
        google_prod_status := DatasetLocationStatus.NEVER_PRESENT,
        unembargo_time := none }

/-- The list comprehension `[_convert_ref_to_dataset_row(ref, origin) for
ref in datasets]`: left to right, the first raised exception aborts the
whole list. -/
def convertRefsToDatasetRows (origin : DatasetOrigin) :
    List DatasetRef → Except String (List DatasetRow)
  | [] => Except.ok []
  | ref :: rest =>
    match convertRefToDatasetRow ref origin with
    | Except.error e => Except.error e
    | Except.ok row =>
      match convertRefsToDatasetRows origin rest with
      | Except.error e => Except.error e
      | Except.ok rows => Except.ok (row :: rows)

/-- `register_embargo_datasets` (`register.py`).  Returns the ledger state
after the call together with `Except.ok ()` on success, or the unchanged
state together with the propagated exception: the row conversion that can
raise runs before the transactional session is opened, so an error leaves
every table untouched. -/
def register_embargo_datasets (origin : DatasetOrigin) (butler : SourceButler)
    (datasets : List DatasetRef) (missing : List (Nat × String))
    (s : LedgerState) : LedgerState × Except String Unit :=
  if datasets.isEmpty then (s, Except.ok ()) else
    match convertRefsToDatasetRows origin datasets with
    | Except.error e => (s, Except.error e)
    | Except.ok dataset_rows =>
      let visit_rows := (findMatchingVisits butler datasets).map
        convertVisitRecordToVisitRow
      let s1 := if visit_rows.isEmpty then s else
        { s with visit := insertRows VisitRow.key s.visit visit_rows }
      let unknown_rows := missing.map
        (fun p => UnknownDatasetRow.mk p.1 origin p.2)
      let s2 := if missing.isEmpty then s1 else
        { s1 with unknown_dataset :=
            insertRows UnknownDatasetRow.id s1.unknown_dataset unknown_rows }
      let s3 := if dataset_rows.isEmpty then s2 else
        { s2 with dataset := insertRows DatasetRow.id s2.dataset dataset_rows }
      (s3, Except.ok ())

/-- SQL `WHERE pk = k` lookup in the `visit` table. -/
def findVisit (tbl : List VisitRow) (k : Int × String) : Option VisitRow :=
  tbl.find? (fun v => decide (VisitRow.key v = k))

/-- SQL `WHERE id = i` lookup in the `dataset` table. -/
def findDataset (tbl : List DatasetRow) (i : Nat) : Option DatasetRow :=
  tbl.find? (fun d => decide (d.id = i))

/-- SQL `WHERE id = i` lookup in the `unknown_dataset` table. -/
def findUnknown (tbl : List UnknownDatasetRow) (i : Nat) :
    Option UnknownDatasetRow :=
  tbl.find? (fun u => decide (u.id = i))

/-- `DatasetBatch` (`register.py`): the parsed batch file. -/
structure DatasetBatch where
  batch_id : String
  datasets : List Nat
  deriving DecidableEq

/-- The identifiers of a batch that `get_many_datasets` did not resolve
(`set(batch.datasets) - set(ref.id for ref in refs)` in
`register_dataset_batch_file`), as a deduplicated list. -/
def missingIdsOf (batch : DatasetBatch) (refs : List DatasetRef) : List Nat :=
  (batch.datasets.filter
    (fun i => refs.all (fun ref => ref.id ≠ i))).dedup

/-- `register_dataset_batch_file` (`register.py`), starting from the parsed
batch (file reading and JSON validation are external).  The third component
counts the warning-level log signals emitted (one when any identifier is
unresolved). -/
def register_dataset_batch_file (origin : DatasetOrigin)
    (source_butler : SourceButler) (batch : DatasetBatch) (s : LedgerState) :
    LedgerState × Except String Unit × Nat :=
  let refs := source_butler.getManyDatasets batch.datasets
  let missing_ids := missingIdsOf batch refs
  let warnings := if missing_ids.isEmpty then 0 else 1
  let error_message := "Dataset not found in Butler, from batch '" ++
    batch.batch_id ++ "'"
  let missing := missing_ids.map (fun i => (i, error_message))
  let r := register_embargo_datasets origin source_butler refs missing s
  (r.1, r.2, warnings)

/-- `retention_period_days` (`config.py`): a day count or the literal
`"forever"`. -/
inductive RetentionPeriod where
  | days (n : Int)
  | forever
  deriving DecidableEq

/-- `DatasetTypeConfigurationItem` (`config.py`). -/
structure DatasetTypeConfigurationItem where
  embargo_period_hours : Int
  publish_to_public : Bool
  retention_period_days : RetentionPeriod
  deriving DecidableEq

/-- `ConfigurationGroup` (`config.py`). -/
structure ConfigurationGroup (T : Type) where
  key : T
  dataset_types : List String
  deriving DecidableEq

/-- `DatasetTypeConfiguration._config` (`config.py`): a Python `dict` from
dataset-type name to its configuration, kept as an association list in the
dict's insertion order (keys unique). -/
abbrev DatasetTypeConfiguration : Type :=
  List (String × DatasetTypeConfigurationItem)

/-- The keys of a Python `defaultdict` in insertion order: first occurrence
of each key, in the order the items were processed. -/
def firstOccurrences {α : Type} [DecidableEq α] (l : List α) : List α :=
  insertRows (fun k => k) [] l

/-- Independent structural description of "one entry per distinct element,
in the order each element first occurs": the head of the input comes first
and all its later duplicates are discarded before recursing.  Used to
characterise the `defaultdict` key order of `group_by` (which is computed
by a fold); the equivalence of the two is proved below, it is not by
definition. -/
def firstOccurrencesSpec {α : Type} [DecidableEq α] : List α → List α
  | [] => []
  | a :: l =>
    a :: firstOccurrencesSpec (l.filter (fun b => decide (b ≠ a)))
  termination_by l => l.length
  decreasing_by exact Nat.lt_succ_of_le (List.length_filter_le _ _)

/-- `DatasetTypeConfiguration.group_by` (`config.py`): bucket the dataset
types by `key_func` of their configuration (a `defaultdict` of sets, so the
group list follows first occurrence of each key) and sort each bucket's
type names. -/
def group_by {T : Type} [DecidableEq T] (config : DatasetTypeConfiguration)
    (key_func : DatasetTypeConfigurationItem → T) :
    List (ConfigurationGroup T) :=
  let keys := firstOccurrences (config.map (fun p => key_func p.2))
  keys.map (fun k =>
    ConfigurationGroup.mk k
      (List.insertionSort (fun a b => a ≤ b)
        (((config.filter (fun p => decide (key_func p.2 = k))).map
          Prod.fst).dedup)))

/-- `MAX_DATASETS` in `_find_datasets_to_unembargo` (`tasks/transfer.py`). -/
def MAX_DATASETS : Nat := 1000000

/-- The WHERE clause of one group's query in `_find_datasets_to_unembargo`
(`tasks/transfer.py`): dataset type in the group, embargo status PRESENT,
prompt-prep status NEVER_PRESENT; and when the group's embargo-hours key is
positive, an inner join to `visit` on the `(visit, instrument)` foreign key
with `Visit.time < now - timedelta(hours = embargo_hours)` (a NULL `time`,
or a NULL visit/instrument on the dataset, never satisfies the join). -/
def matchesGroupQuery (visits : List VisitRow) (now : Int)
    (group : ConfigurationGroup Int) (d : DatasetRow) : Bool :=
  decide (d.dataset_type ∈ group.dataset_types) &&
  decide (d.embargo_status = DatasetLocationStatus.PRESENT) &&
  decide (d.prompt_prep_status = DatasetLocationStatus.NEVER_PRESENT) &&
  (if group.key > 0 then
    visits.any (fun v =>
      decide (d.visit = some v.visit) &&
      decide (d.instrument = some v.instrument) &&
      (match v.time with
        | some t => decide (t < now - 3600 * group.key)
        | none => false))
  else true)

/-- The UNION ALL of the per-group queries of `_find_datasets_to_unembargo`,
before the LIMIT. -/
def findCandidates (config : DatasetTypeConfiguration) (s : LedgerState)
    (now : Int) : List Nat :=
  ((group_by config (fun c => c.embargo_period_hours)).map
    (fun group =>
      (s.dataset.filter (matchesGroupQuery s.visit now group)).map
        DatasetRow.id)).flatten

/-- `_find_datasets_to_unembargo` (`tasks/transfer.py`): the combined query
with its `LIMIT MAX_DATASETS`, evaluated at wall-clock time `now`. -/
def find_datasets_to_unembargo (config : DatasetTypeConfiguration)
    (s : LedgerState) (now : Int) : List Nat :=
  (findCandidates config s now).take MAX_DATASETS

/-- The target Butler, reduced to `transfer_from`: the refs whose files were
actually copied (the Python call also passes `"copy"` and
`register_dataset_types=True`, which do not affect the returned refs). -/
structure TargetButler where
  transferFrom : List DatasetRef → List DatasetRef

/-- `_DatasetTransferResult` (`tasks/transfer.py`).  The Python NamedTuple
holds `list(...)` of frozensets whose iteration order is unspecified, so the
embedding keeps the sets themselves. -/
structure DatasetTransferResult where
  missing_datasets : Finset Nat
  transferred_datasets : Finset Nat

/-- `_transfer_datasets` (`tasks/transfer.py`): resolve the identifiers in
the source Butler, transfer the resolved refs to the target Butler, and
classify every identifier as missing (absent from the registry, or resolved
but absent from the datastore) or transferred. -/
def transfer_datasets (source : SourceButler) (target : TargetButler)
    (dataset_ids : List Nat) : DatasetTransferResult :=
  let ids := dataset_ids.toFinset
  let datasets := source.getManyDatasets dataset_ids
  let found_ids := (datasets.map DatasetRef.id).toFinset
  let missing_ids := ids \ found_ids
  let completed_ids := ((target.transferFrom datasets).map
    DatasetRef.id).toFinset
  let missing_datastore_entries := found_ids \ completed_ids
  DatasetTransferResult.mk (missing_ids ∪ missing_datastore_entries)
    completed_ids

/-- The status columns of the `dataset` table that
`_record_transfer_result`'s string parameters can name. -/
inductive DatasetStatusColumn where
  | embargo_status
  | prompt_prep_status
  | repo_main_status
  | google_int_status
  | google_prod_status
  deriving DecidableEq

/-- The time columns of the `dataset` table. -/
inductive DatasetTimeColumn where
  | unembargo_time
  deriving DecidableEq

/-- Read a status column of a `dataset` row by column name. -/
def DatasetRow.getStatus (col : DatasetStatusColumn) (d : DatasetRow) :
    DatasetLocationStatus :=
  match col with
  | DatasetStatusColumn.embargo_status => d.embargo_status
  | DatasetStatusColumn.prompt_prep_status => d.prompt_prep_status
  | DatasetStatusColumn.repo_main_status => d.repo_main_status
  | DatasetStatusColumn.google_int_status => d.google_int_status
  | DatasetStatusColumn.google_prod_status => d.google_prod_status

/-- Set a status column of a `dataset` row by column name. -/
def DatasetRow.setStatus (col : DatasetStatusColumn)
    (v : DatasetLocationStatus) (d : DatasetRow) : DatasetRow :=
  match col with
  | DatasetStatusColumn.embargo_status => { d with embargo_status := v }
  | DatasetStatusColumn.prompt_prep_status => { d with prompt_prep_status := v }
  | DatasetStatusColumn.repo_main_status => { d with repo_main_status := v }
  | DatasetStatusColumn.google_int_status => { d with google_int_status := v }
  | DatasetStatusColumn.google_prod_status => { d with google_prod_status := v }

/-- Read a time column of a `dataset` row by column name. -/
def DatasetRow.getTime (col : DatasetTimeColumn) (d : DatasetRow) :
    Option Int :=
  match col with
  | DatasetTimeColumn.unembargo_time => d.unembargo_time

/-- Set a time column of a `dataset` row by column name. -/
def DatasetRow.setTime (col : DatasetTimeColumn) (v : Option Int)
    (d : DatasetRow) : DatasetRow :=
  match col with
  | DatasetTimeColumn.unembargo_time => { d with unembargo_time := v }

/-- One parameter dictionary of the ORM bulk UPDATE by primary key: every
row whose `id` matches is rewritten by `f`; a missing id updates nothing. -/
def updateById (tbl : List DatasetRow) (i : Nat)
    (f : DatasetRow → DatasetRow) : List DatasetRow :=
  tbl.map (fun d => if d.id = i then f d else d)

/-- `_record_transfer_result` (`tasks/transfer.py`), with the column-name
strings resolved to column selectors and `datetime.now(timezone.utc)`
passed in as `transfer_time`: inside one unit of work, set the source
status column to MISSING for every missing dataset, then set the target
status column to PRESENT and the target time column to `transfer_time` for
every transferred dataset. -/
def record_transfer_result (missing transferred : List Nat)
    (source_status_column target_status_column : DatasetStatusColumn)
    (target_time_column : DatasetTimeColumn) (transfer_time : Int)
    (s : LedgerState) : LedgerState :=
  let t1 := missing.foldl
    (fun tbl i => updateById tbl i
      (DatasetRow.setStatus source_status_column
        DatasetLocationStatus.MISSING)) s.dataset
  let t2 := transferred.foldl
    (fun tbl i => updateById tbl i
      (fun d => DatasetRow.setTime target_time_column (some transfer_time)
        (DatasetRow.setStatus target_status_column
          DatasetLocationStatus.PRESENT d))) t1
  { s with dataset := t2 }

/-! Concrete fixtures used to evaluate the theorems on explicit inputs. -/

/-- A state database with all three tables empty. -/
def emptyLedger : LedgerState := LedgerState.mk [] [] []

/-- A source Butler that resolves no dataset and knows no visit. -/
def noButler : SourceButler := SourceButler.mk (fun _ => []) (fun _ _ => none)

/-- A configuration item with the given embargo period. -/
def mkItem (h : Int) : DatasetTypeConfigurationItem :=
  DatasetTypeConfigurationItem.mk h true RetentionPeriod.forever

/-- A freshly ingested `dataset` row (statuses as ingestion creates them). -/
def mkDatasetRow (i : Nat) (ty : String) (ins : Option String)
    (v : Option Int) : DatasetRow :=
  { id := i, origin := DatasetOrigin.PROMPT_PROCESSING, dataset_type := ty,
    instrument := ins, visit := v,
    embargo_status := DatasetLocationStatus.PRESENT,
    prompt_prep_status := DatasetLocationStatus.NEVER_PRESENT,
    repo_main_status := DatasetLocationStatus.NEVER_PRESENT,
    google_int_status := DatasetLocationStatus.NEVER_PRESENT,
    google_prod_status := DatasetLocationStatus.NEVER_PRESENT,
    unembargo_time := none }

/-- A `DatasetRef` for a visit-dimension dataset type. -/
def mkVisitRef (i : Nat) (ty : String) (ins : String) (v : Int) : DatasetRef :=
  DatasetRef.mk i ty ["instrument", "visit"] ins v

/-- Two dataset types: `ty80` embargoed for 80 hours, `ty0` not embargoed. -/
def cfgGate : DatasetTypeConfiguration := [("ty80", mkItem 80), ("ty0", mkItem 0)]

/-- A ledger with one visit ending at time `T` and one freshly ingested
dataset of each of `cfgGate`'s types on that visit. -/
def ledgerGate (T : Int) : LedgerState :=
  { visit := [VisitRow.mk 10 "LSSTCam" (some T)],
    dataset := [mkDatasetRow 1 "ty80" (some "LSSTCam") (some 10),
                mkDatasetRow 2 "ty0" (some "LSSTCam") (some 10)],
    unknown_dataset := [] }

/-- One dataset type embargoed for 5 hours. -/
def cfgNullTime : DatasetTypeConfiguration := [("tyN", mkItem 5)]

/-- A ledger whose only visit has a NULL end-time, with one freshly ingested
dataset of type `tyN` on that visit. -/
def ledgerNullTime : LedgerState :=
  { visit := [VisitRow.mk 10 "LSSTCam" none],
    dataset := [mkDatasetRow 4 "tyN" (some "LSSTCam") (some 10)],
    unknown_dataset := [] }

/-- A `DatasetRef` whose dataset type declares an `exposure` dimension. -/
def refExposure : DatasetRef :=
  DatasetRef.mk 9 "raw" ["instrument", "exposure"] "LSSTCam" 20

/-- A source Butler that resolves every requested identifier to a
visit-dimension ref of type `tyB` on visit 10, except identifier 7. -/
def butlerMost : SourceButler :=
  SourceButler.mk
    (fun ids => (ids.filter (fun i => decide (i ≠ 7))).map
      (fun i => mkVisitRef i "tyB" "LSSTCam" 10))
    (fun v ins => some (VisitDimensionRecord.mk v ins (some 1000)))

/-- A source Butler that resolves every requested identifier to a
visit-dimension ref of type `tyB` on visit 10, except identifiers 7 and 9. -/
def butlerSome : SourceButler :=
  SourceButler.mk
    (fun ids => (ids.filter
      (fun i => decide (i ≠ 7) && decide (i ≠ 9))).map
      (fun i => mkVisitRef i "tyB" "LSSTCam" 10))
    (fun v ins => some (VisitDimensionRecord.mk v ins (some 1000)))

/-- A target Butler that copies every ref except the one with identifier 2. -/
def targetMost : TargetButler :=
  TargetButler.mk (fun refs => refs.filter (fun r => decide (r.id ≠ 2)))

/-- A ledger with three freshly ingested datasets, identifiers 1, 2 and 3. -/
def ledgerThree : LedgerState :=
  { visit := [],
    dataset := [mkDatasetRow 1 "tyB" none none, mkDatasetRow 2 "tyB" none none,
                mkDatasetRow 3 "tyB" none none],
    unknown_dataset := [] }

/-- A `dataset` row whose prompt-prep status was manually advanced to
PRESENT. -/
def advancedRow : DatasetRow :=
  { mkDatasetRow 5 "tyB" (some "LSSTCam") (some 10) with
    prompt_prep_status := DatasetLocationStatus.PRESENT }

/-- A ledger whose only dataset row has been manually advanced to
prompt-prep status PRESENT. -/
def ledgerAdvanced : LedgerState :=
  { visit := [], dataset := [advancedRow], unknown_dataset := [] }

/-- A two-type configuration whose keys appear in non-sorted order. -/
def cfgUnsorted : DatasetTypeConfiguration := [("b", mkItem 2), ("a", mkItem 1)]

/-! Lemmas about INSERT .. ON CONFLICT DO NOTHING. -/

theorem insertRow_of_key_mem {ρ κ : Type} [DecidableEq κ] (key : ρ → κ)
    (t : List ρ) (r : ρ) (h : key r ∈ t.map key) : insertRow key t r = t := by
  simp [insertRow, h]

theorem keys_mem_insertRow {ρ κ : Type} [DecidableEq κ] (key : ρ → κ)
    (t : List ρ) (r : ρ) (k : κ) (h : k ∈ t.map key) :
    k ∈ (insertRow key t r).map key := by
  unfold insertRow
  split
  · exact h
  · simp only [List.map_append, List.mem_append]
    exact Or.inl h

theorem keys_mem_insertRows {ρ κ : Type} [DecidableEq κ] (key : ρ → κ)
    (t : List ρ) (rs : List ρ) (k : κ) (h : k ∈ t.map key) :
    k ∈ (insertRows key t rs).map key := by
  induction rs generalizing t with
  | nil => exact h
  | cons r rs ih =>
    simp only [insertRows, List.foldl_cons]
    exact ih (insertRow key t r) (keys_mem_insertRow key t r k h)

theorem key_mem_insertRows {ρ κ : Type} [DecidableEq κ] (key : ρ → κ)
    (t : List ρ) (rs : List ρ) (r : ρ) (h : r ∈ rs) :
    key r ∈ (insertRows key t rs).map key := by
  induction rs generalizing t with
  | nil => cases h
  | cons a rs ih =>
    simp only [insertRows, List.foldl_cons]
    rcases List.mem_cons.mp h with rfl | h2
    · refine keys_mem_insertRows key _ rs (key r) ?_
      unfold insertRow
      split
      · assumption
      · simp
    · exact ih (insertRow key t a) h2

theorem insertRows_eq_self {ρ κ : Type} [DecidableEq κ] (key : ρ → κ)
    (t : List ρ) (rs : List ρ) (h : ∀ r ∈ rs, key r ∈ t.map key) :
    insertRows key t rs = t := by
  induction rs with
  | nil => rfl
  | cons r rs ih =>
    simp only [insertRows, List.foldl_cons]
    rw [insertRow_of_key_mem key t r (h r (List.mem_cons_self r rs))]
    exact ih (fun x hx => h x (List.mem_cons_of_mem r hx))

theorem insertRows_idem {ρ κ : Type} [DecidableEq κ] (key : ρ → κ)
    (t : List ρ) (rs : List ρ) :
    insertRows key (insertRows key t rs) rs = insertRows key t rs :=
  insertRows_eq_self key _ rs (fun r hr => key_mem_insertRows key t rs r hr)

theorem find?_insertRow {ρ κ : Type} [DecidableEq κ] (key : ρ → κ)
    (t : List ρ) (r : ρ) (p : ρ → Bool) (x : ρ) (h : t.find? p = some x) :
    (insertRow key t r).find? p = some x := by
  unfold insertRow
  split
  · exact h
  · rw [List.find?_append, h]
    rfl

theorem find?_insertRows {ρ κ : Type} [DecidableEq κ] (key : ρ → κ)
    (t : List ρ) (rs : List ρ) (p : ρ → Bool) (x : ρ)
    (h : t.find? p = some x) : (insertRows key t rs).find? p = some x := by
  induction rs generalizing t with
  | nil => exact h
  | cons r rs ih =>
    simp only [insertRows, List.foldl_cons]
    exact ih (insertRow key t r) (find?_insertRow key t r p x h)

theorem mem_insertRows_id {α : Type} [DecidableEq α] (t : List α)
    (l : List α) (x : α) :
    x ∈ insertRows (fun k => k) t l ↔ x ∈ t ∨ x ∈ l := by
  induction l generalizing t with
  | nil => simp [insertRows]
  | cons a l ih =>
    simp only [insertRows, List.foldl_cons] at *
    rw [ih]
    unfold insertRow
    split
    · next hmem =>
      simp only [List.map_id_fun, id_eq, List.map_id'] at hmem
      simp only [List.mem_cons]
      constructor
      · rintro (h | h)
        · exact Or.inl h
        · exact Or.inr (Or.inr h)
      · rintro (h | rfl | h)
        · exact Or.inl h
        · exact Or.inl hmem
        · exact Or.inr h
    · simp only [List.mem_append, List.mem_singleton, List.mem_cons]
      tauto

theorem mem_firstOccurrences {α : Type} [DecidableEq α] (l : List α) (x : α) :
    x ∈ firstOccurrences l ↔ x ∈ l := by
  rw [firstOccurrences, mem_insertRows_id]
  simp

theorem insertRows_eq_append {ρ κ : Type} [DecidableEq κ] (key : ρ → κ)
    (t rs : List ρ) (hfresh : ∀ r ∈ rs, key r ∉ t.map key)
    (hnodup : (rs.map key).Nodup) : insertRows key t rs = t ++ rs := by
  induction rs generalizing t with
  | nil => simp [insertRows]
  | cons r rs ih =>
    rw [List.map_cons, List.nodup_cons] at hnodup
    simp only [insertRows, List.foldl_cons]
    have h1 : insertRow key t r = t ++ [r] := by
      rw [insertRow, if_neg (hfresh r (List.mem_cons_self r rs))]
    rw [h1]
    have h2 : List.foldl (insertRow key) (t ++ [r]) rs = (t ++ [r]) ++ rs := by
      refine ih (t ++ [r]) ?_ hnodup.2
      intro x hx
      rw [List.map_append, List.mem_append]
      rintro (hxt | hxr)
      · exact hfresh x (List.mem_cons_of_mem r hx) hxt
      · rw [List.map_cons, List.map_nil, List.mem_singleton] at hxr
        exact hnodup.1 (hxr ▸ List.mem_map_of_mem key hx)
    rw [h2, List.append_assoc, List.singleton_append]

theorem insertRows_id_eq_append_spec {α : Type} [DecidableEq α]
    (l t : List α) :
    insertRows (fun k => k) t l =
      t ++ firstOccurrencesSpec (l.filter (fun b => decide (b ∉ t))) := by
  induction l generalizing t with
  | nil => simp [insertRows, firstOccurrencesSpec]
  | cons a l ih =>
    simp only [insertRows, List.foldl_cons, List.filter_cons]
    by_cases ha : a ∈ t
    · have hdec : decide (a ∉ t) = false := by simp [ha]
      simp only [hdec, Bool.false_eq_true, if_false]
      have h1 : insertRow (fun k => k) t a = t :=
        insertRow_of_key_mem _ t a (by simpa using ha)
      rw [h1]
      exact ih t
    · have hdec : decide (a ∉ t) = true := by simpa using ha
      simp only [hdec, if_true]
      have h1 : insertRow (fun k => k) t a = t ++ [a] := by
        rw [insertRow, if_neg (by simpa using ha)]
      rw [h1]
      have ih2 : List.foldl (insertRow (fun k => k)) (t ++ [a]) l =
          (t ++ [a]) ++ firstOccurrencesSpec
            (l.filter (fun b => decide (b ∉ t ++ [a]))) := ih (t ++ [a])
      rw [ih2, firstOccurrencesSpec, List.filter_filter]
      have hcong : (l.filter (fun b =>
          decide (b ≠ a) && decide (b ∉ t))) =
          l.filter (fun b => decide (b ∉ t ++ [a])) := by
        congr 1
        funext b
        by_cases hb1 : b = a
        · simp [hb1]
        · by_cases hb2 : b ∈ t
          · simp [hb1, hb2]
          · simp [hb1, hb2]
      rw [hcong, List.append_assoc, List.singleton_append]

theorem firstOccurrences_eq_spec {α : Type} [DecidableEq α] (l : List α) :
    firstOccurrences l = firstOccurrencesSpec l := by
  rw [firstOccurrences, insertRows_id_eq_append_spec l []]
  simp

theorem mem_firstOccurrencesSpec {α : Type} [DecidableEq α] (l : List α)
    (x : α) : x ∈ firstOccurrencesSpec l ↔ x ∈ l := by
  induction l using firstOccurrencesSpec.induct with
  | case1 => rw [firstOccurrencesSpec]
  | case2 a l ih =>
    rw [firstOccurrencesSpec]
    simp only [List.mem_cons, ih, List.mem_filter, decide_eq_true_eq]
    by_cases hx : x = a
    · simp [hx]
    · simp [hx]

theorem nodup_firstOccurrencesSpec {α : Type} [DecidableEq α] (l : List α) :
    (firstOccurrencesSpec l).Nodup := by
  induction l using firstOccurrencesSpec.induct with
  | case1 =>
    rw [firstOccurrencesSpec]
    exact List.nodup_nil
  | case2 a l ih =>
    rw [firstOccurrencesSpec, List.nodup_cons]
    refine ⟨?_, ih⟩
    intro hmem
    rw [mem_firstOccurrencesSpec, List.mem_filter] at hmem
    simpa using hmem.2

/-! Lemmas about the ingestion row conversion. -/

theorem convertRefToDatasetRow_error_shape (ref : DatasetRef)
    (origin : DatasetOrigin) (e : String)
    (h : convertRefToDatasetRow ref origin = Except.error e) :
    e = "Dataset type '" ++ ref.datasetTypeName ++
      "' with exposure dimensions cannot yet be imported." := by
  rw [convertRefToDatasetRow] at h
  split at h
  · injection h with h2
    exact h2.symm
  · cases h

theorem convertRefToDatasetRow_ok_of_no_exposure (ref : DatasetRef)
    (origin : DatasetOrigin) (h : "exposure" ∉ ref.dimensions) :
    ∃ row, convertRefToDatasetRow ref origin = Except.ok row := by
  simp [convertRefToDatasetRow, h]

theorem convertRefs_ok_of_no_exposure (origin : DatasetOrigin)
    (l : List DatasetRef) (h : ∀ ref ∈ l, "exposure" ∉ ref.dimensions) :
    ∃ rows, convertRefsToDatasetRows origin l = Except.ok rows := by
  induction l with
  | nil => exact ⟨[], rfl⟩
  | cons a rest ih =>
    obtain ⟨row, hr⟩ := convertRefToDatasetRow_ok_of_no_exposure a origin
      (h a (List.mem_cons_self a rest))
    obtain ⟨rows, hrs⟩ := ih (fun x hx => h x (List.mem_cons_of_mem a hx))
    exact ⟨row :: rows, by simp [convertRefsToDatasetRows, hr, hrs]⟩

theorem convertRefs_exposure_error (origin : DatasetOrigin)
    (l : List DatasetRef) (ref : DatasetRef) (h : ref ∈ l)
    (hexp : "exposure" ∈ ref.dimensions) :
    ∃ name, convertRefsToDatasetRows origin l = Except.error
      ("Dataset type '" ++ name ++
        "' with exposure dimensions cannot yet be imported.") := by
  induction l with
  | nil => cases h
  | cons a rest ih =>
    cases hc : convertRefToDatasetRow a origin with
    | error e =>
      refine ⟨a.datasetTypeName, ?_⟩
      have hshape := convertRefToDatasetRow_error_shape a origin e hc
      simp [convertRefsToDatasetRows, hc, hshape]
    | ok row =>
      rcases List.mem_cons.mp h with rfl | h2
      · exfalso
        simp [convertRefToDatasetRow, hexp] at hc
      · obtain ⟨name, hn⟩ := ih h2
        exact ⟨name, by simp [convertRefsToDatasetRows, hc, hn]⟩

/-! Lemmas: a successful or failed ingestion call never disturbs a row that
is already in the ledger (insert-on-conflict-ignore). -/

theorem register_preserves_findVisit (origin : DatasetOrigin)
    (butler : SourceButler) (datasets : List DatasetRef)
    (missing : List (Nat × String)) (s : LedgerState) (k : Int × String)
    (row : VisitRow) (h : findVisit s.visit k = some row) :
    findVisit
      (register_embargo_datasets origin butler datasets missing s).1.visit k =
      some row := by
  rw [register_embargo_datasets]
  split
  · exact h
  · split
    · exact h
    · simp only [apply_ite LedgerState.visit, ite_self]
      split
      · exact h
      · exact find?_insertRows VisitRow.key s.visit _ _ row h

theorem register_preserves_findDataset (origin : DatasetOrigin)
    (butler : SourceButler) (datasets : List DatasetRef)
    (missing : List (Nat × String)) (s : LedgerState) (i : Nat)
    (row : DatasetRow) (h : findDataset s.dataset i = some row) :
    findDataset
      (register_embargo_datasets origin butler datasets missing s).1.dataset
      i = some row := by
  rw [register_embargo_datasets]
  split
  · exact h
  · split
    · exact h
    · simp only [apply_ite LedgerState.dataset, ite_self]
      split
      · exact h
      · exact find?_insertRows DatasetRow.id s.dataset _ _ row h

theorem register_preserves_findUnknown (origin : DatasetOrigin)
    (butler : SourceButler) (datasets : List DatasetRef)
    (missing : List (Nat × String)) (s : LedgerState) (i : Nat)
    (row : UnknownDatasetRow) (h : findUnknown s.unknown_dataset i = some row) :
    findUnknown
      (register_embargo_datasets origin butler datasets missing
        s).1.unknown_dataset i = some row := by
  rw [register_embargo_datasets]
  split
  · exact h
  · split
    · exact h
    · simp only [apply_ite LedgerState.unknown_dataset, ite_self]
      split
      · exact h
      · exact find?_insertRows UnknownDatasetRow.id s.unknown_dataset _ _ row h

/-- Characterisation of a successful ingestion call: each table receives its
batch of rows through insert-on-conflict-ignore. -/
theorem register_ok_result (origin : DatasetOrigin) (butler : SourceButler)
    (datasets : List DatasetRef) (missing : List (Nat × String))
    (s : LedgerState) (rows : List DatasetRow)
    (hd : ¬ datasets.isEmpty = true)
    (hc : convertRefsToDatasetRows origin datasets = Except.ok rows) :
    register_embargo_datasets origin butler datasets missing s =
      (LedgerState.mk
        (if ((findMatchingVisits butler datasets).map
            convertVisitRecordToVisitRow).isEmpty then s.visit
          else insertRows VisitRow.key s.visit
            ((findMatchingVisits butler datasets).map
              convertVisitRecordToVisitRow))
        (if rows.isEmpty then s.dataset
          else insertRows DatasetRow.id s.dataset rows)
        (if missing.isEmpty then s.unknown_dataset
          else insertRows UnknownDatasetRow.id s.unknown_dataset
            (missing.map (fun p => UnknownDatasetRow.mk p.1 origin p.2))),
        Except.ok ()) := by
  rw [register_embargo_datasets, if_neg hd, hc]
  dsimp only
  split_ifs <;> rfl

/-- C1: Ingestion is idempotent: running `register_embargo_datasets` on the
same batch twice in succession produces exactly the same ledger state
(visit, dataset and unknown_dataset tables) as running it once — every row
of the replay hits the primary-key-conflict short-circuit of
`insert_if_not_exists`, so re-inserting rows that already exist is a no-op. -/
theorem register_embargo_datasets_idempotent (origin : DatasetOrigin)
    (butler : SourceButler) (datasets : List DatasetRef)
    (missing : List (Nat × String)) (s : LedgerState) :
    register_embargo_datasets origin butler datasets missing
      (register_embargo_datasets origin butler datasets missing s).1 =
    register_embargo_datasets origin butler datasets missing s := by
  by_cases hd : datasets.isEmpty = true
  · simp [register_embargo_datasets, hd]
  · cases hc : convertRefsToDatasetRows origin datasets with
    | error e => simp [register_embargo_datasets, hd, hc]
    | ok rows =>
      rw [register_ok_result origin butler datasets missing s rows hd hc]
      simp only []
      rw [register_ok_result origin butler datasets missing _ rows hd hc]
      simp only [Prod.mk.injEq, LedgerState.mk.injEq]
      refine ⟨⟨?_, ?_, ?_⟩, trivial⟩
      · by_cases hv : ((findMatchingVisits butler datasets).map
            convertVisitRecordToVisitRow).isEmpty = true
        · simp [hv]
        · simp [hv, insertRows_idem]
      · by_cases hr : rows.isEmpty = true
        · simp [hr]
        · simp [hr, insertRows_idem]
      · by_cases hm : missing.isEmpty = true
        · simp [hm]
        · simp [hm, insertRows_idem]

/-- C8: Zero-row early return: when the resolved-dataset list is empty,
`register_embargo_datasets` returns immediately (before any unit of work is
opened), leaving all three tables of the ledger unchanged — even when a
non-empty `missing` mapping was passed. -/
theorem register_embargo_datasets_zero_rows (origin : DatasetOrigin)
    (butler : SourceButler) (missing : List (Nat × String)) (s : LedgerState) :
    register_embargo_datasets origin butler [] missing s =
      (s, Except.ok ()) := rfl

/-- C6: Exposure-dimension rejection is atomic: a batch containing a ref
whose dataset type declares an `exposure` dimension makes the whole call
fail with the `NotImplementedError` message, and the ledger state is
unchanged — no visit, dataset or unknown_dataset row is inserted, because
the row conversion raises before the transactional session opens. -/
theorem register_embargo_datasets_exposure_atomic (origin : DatasetOrigin)
    (butler : SourceButler) (datasets : List DatasetRef)
    (missing : List (Nat × String)) (s : LedgerState) (ref : DatasetRef)
    (href : ref ∈ datasets) (hexp : "exposure" ∈ ref.dimensions) :
    (register_embargo_datasets origin butler datasets missing s).1 = s ∧
    ∃ name, (register_embargo_datasets origin butler datasets missing s).2 =
      Except.error ("Dataset type '" ++ name ++
        "' with exposure dimensions cannot yet be imported.") := by
  obtain ⟨name, hn⟩ := convertRefs_exposure_error origin datasets ref href hexp
  have hd : ¬ datasets.isEmpty = true := by
    cases datasets
    · cases href
    · simp
  refine ⟨?_, ⟨name, ?_⟩⟩
  · rw [register_embargo_datasets, if_neg hd, hn]
  · rw [register_embargo_datasets, if_neg hd, hn]

/-- Witness for C6 at a concrete input: a single-element batch whose ref
declares an `exposure` dimension fails and leaves the empty ledger empty. -/
theorem register_embargo_datasets_exposure_atomic_witness :
    refExposure ∈ [refExposure] ∧ "exposure" ∈ refExposure.dimensions ∧
    ((register_embargo_datasets DatasetOrigin.PROMPT_PROCESSING noButler
        [refExposure] [] emptyLedger).1 = emptyLedger ∧
      ∃ name, (register_embargo_datasets DatasetOrigin.PROMPT_PROCESSING
          noButler [refExposure] [] emptyLedger).2 =
        Except.error ("Dataset type '" ++ name ++
          "' with exposure dimensions cannot yet be imported.")) :=
  ⟨by decide, by decide,
    register_embargo_datasets_exposure_atomic DatasetOrigin.PROMPT_PROCESSING
      noButler [refExposure] [] emptyLedger refExposure (by decide) (by decide)⟩

/-- C7: No overwrite on replay: a dataset row already recorded in the
ledger — in particular one whose downstream (prompt-prep) status was
manually advanced to PRESENT — is left completely unchanged by re-running
ingestion for that same dataset identifier: the replayed insert hits the
primary-key conflict and is ignored. -/
theorem register_embargo_datasets_no_overwrite (origin : DatasetOrigin)
    (butler : SourceButler) (datasets : List DatasetRef)
    (missing : List (Nat × String)) (s : LedgerState) (i : Nat)
    (row : DatasetRow) (hrow : findDataset s.dataset i = some row)
    (hadv : row.prompt_prep_status = DatasetLocationStatus.PRESENT)
    (href : ∃ ref ∈ datasets, ref.id = i) :
    findDataset
      (register_embargo_datasets origin butler datasets missing s).1.dataset
      i = some row :=
  register_preserves_findDataset origin butler datasets missing s i row hrow

/-- Witness for C7 at a concrete input: re-ingesting dataset 5, whose row
was advanced to prompt-prep PRESENT, leaves the row unchanged. -/
theorem register_embargo_datasets_no_overwrite_witness :
    findDataset ledgerAdvanced.dataset 5 = some advancedRow ∧
    advancedRow.prompt_prep_status = DatasetLocationStatus.PRESENT ∧
    (∃ ref ∈ [mkVisitRef 5 "tyB" "LSSTCam" 10], ref.id = 5) ∧
    findDataset
      (register_embargo_datasets DatasetOrigin.PROMPT_PROCESSING butlerMost
        [mkVisitRef 5 "tyB" "LSSTCam" 10] [] ledgerAdvanced).1.dataset 5 =
      some advancedRow :=
  ⟨by decide, by decide, by decide,
    register_embargo_datasets_no_overwrite DatasetOrigin.PROMPT_PROCESSING
      butlerMost [mkVisitRef 5 "tyB" "LSSTCam" 10] [] ledgerAdvanced 5
      advancedRow (by decide) (by decide) (by decide)⟩

/-- C4 counterexample: a batch whose single identifier is absent from the
source store resolves no ref at all, so `register_embargo_datasets` takes
the zero-row early return and no UnknownDatasetRecord is inserted (the
claim demands exactly one), although the warning is surfaced and the call
does not fail. -/
theorem register_dataset_batch_file_all_missing_counterexample :
    (register_dataset_batch_file DatasetOrigin.PROMPT_PROCESSING noButler
      (DatasetBatch.mk "59643df0" [7]) emptyLedger).1.unknown_dataset.length
      = 0 ∧
    (register_dataset_batch_file DatasetOrigin.PROMPT_PROCESSING noButler
      (DatasetBatch.mk "59643df0" [7]) emptyLedger).2.2 = 1 ∧
    (register_dataset_batch_file DatasetOrigin.PROMPT_PROCESSING noButler
      (DatasetBatch.mk "59643df0" [7]) emptyLedger).2.1 = Except.ok () :=
  ⟨rfl, rfl, rfl⟩

/-- C4 (amended): for every ingestion batch in which at least one
identifier resolves (and no resolved type has an exposure dimension), every
identifier that cannot be resolved against the source store is recorded as
exactly one new UnknownDatasetRecord whose `error` field contains the batch
identifier — the unknown table becomes exactly the old table plus one fresh
row per unresolvable identifier — one warning-level signal is surfaced
when any identifier is unresolvable, and the call succeeds. -/
theorem register_dataset_batch_file_unknown_tracking (origin : DatasetOrigin)
    (butler : SourceButler) (batch : DatasetBatch) (s : LedgerState)
    (hne : butler.getManyDatasets batch.datasets ≠ [])
    (hexp : ∀ ref ∈ butler.getManyDatasets batch.datasets,
      "exposure" ∉ ref.dimensions)
    (hfresh : ∀ u ∈ s.unknown_dataset,
      u.id ∉ missingIdsOf batch (butler.getManyDatasets batch.datasets)) :
    (register_dataset_batch_file origin butler batch s).1.unknown_dataset =
      s.unknown_dataset ++
        (missingIdsOf batch (butler.getManyDatasets batch.datasets)).map
          (fun i => UnknownDatasetRow.mk i origin
            ("Dataset not found in Butler, from batch '" ++
              batch.batch_id ++ "'")) ∧
    (register_dataset_batch_file origin butler batch s).2.1 = Except.ok () ∧
    (register_dataset_batch_file origin butler batch s).2.2 =
      (if (missingIdsOf batch
          (butler.getManyDatasets batch.datasets)).isEmpty then 0 else 1) := by
  obtain ⟨rows, hc⟩ := convertRefs_ok_of_no_exposure origin _ hexp
  have hd : ¬ (butler.getManyDatasets batch.datasets).isEmpty = true := by
    intro habs
    exact hne (List.isEmpty_iff.mp habs)
  have hreg := register_ok_result origin butler
    (butler.getManyDatasets batch.datasets)
    ((missingIdsOf batch (butler.getManyDatasets batch.datasets)).map
      (fun i => (i, "Dataset not found in Butler, from batch '" ++
        batch.batch_id ++ "'"))) s rows hd hc
  have hnodupM : (missingIdsOf batch
      (butler.getManyDatasets batch.datasets)).Nodup :=
    List.nodup_dedup _
  simp only [register_dataset_batch_file, hreg]
  refine ⟨?_, trivial, trivial⟩
  cases hM : missingIdsOf batch (butler.getManyDatasets batch.datasets) with
  | nil => simp
  | cons m ms =>
    rw [hM] at hfresh hnodupM
    rw [if_neg (by simp), List.map_map]
    refine insertRows_eq_append UnknownDatasetRow.id s.unknown_dataset _
      ?_ ?_
    · intro r hr
      rw [List.mem_map] at hr
      obtain ⟨i, hi, hieq⟩ := hr
      intro hrk
      rw [List.mem_map] at hrk
      obtain ⟨u, hu, huk⟩ := hrk
      refine hfresh u hu ?_
      rw [huk, ← hieq]
      exact hi
    · rw [List.map_map]
      exact (List.map_id' (m :: ms)).symm ▸ hnodupM

/-- Witness for C4 (amended) at a concrete input: the batch `[3, 7, 9]`
where only 3 resolves yields exactly one new UnknownDatasetRecord for each
of 7 and 9, with one warning and a successful call. -/
theorem register_dataset_batch_file_unknown_tracking_witness :
    (butlerSome.getManyDatasets [3, 7, 9] ≠ [] ∧
      (∀ ref ∈ butlerSome.getManyDatasets [3, 7, 9],
        "exposure" ∉ ref.dimensions) ∧
      (∀ u ∈ emptyLedger.unknown_dataset,
        u.id ∉ missingIdsOf (DatasetBatch.mk "59643df0" [3, 7, 9])
          (butlerSome.getManyDatasets [3, 7, 9]))) ∧
    ((register_dataset_batch_file DatasetOrigin.PROMPT_PROCESSING butlerSome
        (DatasetBatch.mk "59643df0" [3, 7, 9])
        emptyLedger).1.unknown_dataset =
      emptyLedger.unknown_dataset ++
        (missingIdsOf (DatasetBatch.mk "59643df0" [3, 7, 9])
          (butlerSome.getManyDatasets [3, 7, 9])).map
          (fun i => UnknownDatasetRow.mk i DatasetOrigin.PROMPT_PROCESSING
            ("Dataset not found in Butler, from batch '" ++ "59643df0" ++
              "'")) ∧
      (register_dataset_batch_file DatasetOrigin.PROMPT_PROCESSING butlerSome
        (DatasetBatch.mk "59643df0" [3, 7, 9]) emptyLedger).2.1 =
        Except.ok () ∧
      (register_dataset_batch_file DatasetOrigin.PROMPT_PROCESSING butlerSome
        (DatasetBatch.mk "59643df0" [3, 7, 9]) emptyLedger).2.2 =
        (if (missingIdsOf (DatasetBatch.mk "59643df0" [3, 7, 9])
          (butlerSome.getManyDatasets [3, 7, 9])).isEmpty then 0 else 1)) ∧
    missingIdsOf (DatasetBatch.mk "59643df0" [3, 7, 9])
      (butlerSome.getManyDatasets [3, 7, 9]) = [7, 9] :=
  ⟨⟨by decide, by decide, by decide⟩,
    register_dataset_batch_file_unknown_tracking
      DatasetOrigin.PROMPT_PROCESSING butlerSome
      (DatasetBatch.mk "59643df0" [3, 7, 9]) emptyLedger (by decide)
      (by decide) (by decide),
    by decide⟩

/-! Lemmas about `group_by`. -/

theorem mem_dataset_types_group_by {T : Type} [DecidableEq T]
    (config : DatasetTypeConfiguration)
    (keyf : DatasetTypeConfigurationItem → T) (g : ConfigurationGroup T)
    (hg : g ∈ group_by config keyf) (ty : String) :
    ty ∈ g.dataset_types ↔
      ∃ item, (ty, item) ∈ config ∧ keyf item = g.key := by
  simp only [group_by, List.mem_map] at hg
  obtain ⟨k, hk, rfl⟩ := hg
  constructor
  · intro hty
    rw [List.mem_insertionSort, List.mem_dedup, List.mem_map] at hty
    obtain ⟨p, hp, hfst⟩ := hty
    rw [List.mem_filter] at hp
    obtain ⟨hpc, hpk⟩ := hp
    refine ⟨p.2, ?_, of_decide_eq_true hpk⟩
    have : p = (ty, p.2) := by
      rw [← hfst]
    rw [← this]
    exact hpc
  · rintro ⟨item, hin, hkey⟩
    rw [List.mem_insertionSort, List.mem_dedup, List.mem_map]
    exact ⟨(ty, item), List.mem_filter.mpr ⟨hin, by simp [hkey]⟩, rfl⟩

theorem group_by_dataset_types_sorted {T : Type} [DecidableEq T]
    (config : DatasetTypeConfiguration)
    (keyf : DatasetTypeConfigurationItem → T) (g : ConfigurationGroup T)
    (hg : g ∈ group_by config keyf) :
    List.Sorted (fun a b => a ≤ b) g.dataset_types := by
  simp only [group_by, List.mem_map] at hg
  obtain ⟨k, hk, rfl⟩ := hg
  exact List.sorted_insertionSort _ _

theorem group_by_dataset_types_nodup {T : Type} [DecidableEq T]
    (config : DatasetTypeConfiguration)
    (keyf : DatasetTypeConfigurationItem → T) (g : ConfigurationGroup T)
    (hg : g ∈ group_by config keyf) : g.dataset_types.Nodup := by
  simp only [group_by, List.mem_map] at hg
  obtain ⟨k, hk, rfl⟩ := hg
  exact (List.perm_insertionSort _ _).nodup_iff.mpr (List.nodup_dedup _)

theorem key_group_by {T : Type} [DecidableEq T]
    (config : DatasetTypeConfiguration)
    (keyf : DatasetTypeConfigurationItem → T) (k : T) :
    (∃ g ∈ group_by config keyf, g.key = k) ↔
      ∃ p ∈ config, keyf p.2 = k := by
  simp only [group_by, List.mem_map]
  constructor
  · rintro ⟨g, ⟨k2, hk2, rfl⟩, hkey⟩
    rw [mem_firstOccurrences, List.mem_map] at hk2
    obtain ⟨p, hp, hkp⟩ := hk2
    exact ⟨p, hp, by rw [hkp]; exact hkey⟩
  · rintro ⟨p, hp, hkp⟩
    refine ⟨ConfigurationGroup.mk k
      (List.insertionSort (fun a b => a ≤ b)
        (((config.filter (fun q => decide (keyf q.2 = k))).map
          Prod.fst).dedup)), ⟨k, ?_, rfl⟩, rfl⟩
    rw [mem_firstOccurrences, List.mem_map]
    exact ⟨p, hp, hkp⟩

/-- C9 counterexample: the list of groups is not sorted: a configuration
whose keys first appear in the order `[2, 1]` yields the groups keyed
`[2, 1]` (first-occurrence order, not sorted order). -/
theorem group_by_not_sorted_counterexample :
    ((group_by cfgUnsorted (fun c => c.embargo_period_hours)).map
      (fun g => g.key)) = [2, 1] ∧
    ¬ List.Sorted (fun a b : Int => a ≤ b)
      ((group_by cfgUnsorted (fun c => c.embargo_period_hours)).map
        (fun g => g.key)) := by
  constructor
  · rfl
  · decide

/-- C9 (amended): `group_by` is a pure function returning a deterministic
list of groups — one group per distinct key (the key list is
duplicate-free), listed in the order each key first occurs in the mapping
(the key list equals the structural first-occurrence sequence of the
mapping's key images, not a key-sorted list) — each group pairing a key
with the sorted, duplicate-free list of exactly the dataset-type names
sharing that key; the empty mapping yields the empty list. -/
theorem group_by_spec {T : Type} [DecidableEq T]
    (config : DatasetTypeConfiguration)
    (keyf : DatasetTypeConfigurationItem → T) :
    group_by ([] : DatasetTypeConfiguration) keyf = [] ∧
    (group_by config keyf).map (fun g => g.key) =
      firstOccurrencesSpec (config.map (fun p => keyf p.2)) ∧
    ((group_by config keyf).map (fun g => g.key)).Nodup ∧
    (∀ g ∈ group_by config keyf,
      List.Sorted (fun a b => a ≤ b) g.dataset_types ∧
        g.dataset_types.Nodup) ∧
    (∀ g ∈ group_by config keyf, ∀ ty : String,
      ty ∈ g.dataset_types ↔
        ∃ item, (ty, item) ∈ config ∧ keyf item = g.key) ∧
    (∀ k : T, (∃ g ∈ group_by config keyf, g.key = k) ↔
      ∃ p ∈ config, keyf p.2 = k) := by
  have hkeys : (group_by config keyf).map (fun g => g.key) =
      firstOccurrencesSpec (config.map (fun p => keyf p.2)) := by
    rw [group_by]
    rw [List.map_map]
    rw [← firstOccurrences_eq_spec]
    exact List.map_id' _
  refine ⟨rfl, hkeys, ?_, ?_, ?_, ?_⟩
  · rw [hkeys]
    exact nodup_firstOccurrencesSpec _
  · exact fun g hg => ⟨group_by_dataset_types_sorted config keyf g hg,
      group_by_dataset_types_nodup config keyf g hg⟩
  · exact fun g hg ty => mem_dataset_types_group_by config keyf g hg ty
  · exact fun k => key_group_by config keyf k

/-- C10: Transfer classification partitions the input: assuming the source
store resolves a subset of the requested identifiers and the target store
transfers a subset of the resolved ones, the missing and transferred sets
returned by `_transfer_datasets` are disjoint and their union is exactly
the input set — no identifier is dropped or classified twice. -/
theorem transfer_datasets_partition (source : SourceButler)
    (target : TargetButler) (dataset_ids : List Nat)
    (hfound : ((source.getManyDatasets dataset_ids).map
      DatasetRef.id).toFinset ⊆ dataset_ids.toFinset)
    (hcompleted : ((target.transferFrom
      (source.getManyDatasets dataset_ids)).map DatasetRef.id).toFinset ⊆
      ((source.getManyDatasets dataset_ids).map DatasetRef.id).toFinset) :
    (transfer_datasets source target dataset_ids).missing_datasets ∩
      (transfer_datasets source target dataset_ids).transferred_datasets
      = ∅ ∧
    (transfer_datasets source target dataset_ids).missing_datasets ∪
      (transfer_datasets source target dataset_ids).transferred_datasets
      = dataset_ids.toFinset := by
  simp only [transfer_datasets]
  constructor
  · ext x
    simp only [Finset.mem_inter, Finset.mem_union, Finset.mem_sdiff,
      Finset.not_mem_empty, iff_false]
    rintro ⟨hm, hc⟩
    have hxf := hcompleted hc
    rcases hm with ⟨_, hnf⟩ | ⟨_, hnc⟩
    · exact hnf hxf
    · exact hnc hc
  · ext x
    simp only [Finset.mem_union, Finset.mem_sdiff]
    constructor
    · rintro ((⟨hi, _⟩ | ⟨hf, _⟩) | hc)
      · exact hi
      · exact hfound hf
      · exact hfound (hcompleted hc)
    · intro hi
      by_cases hc : x ∈ ((target.transferFrom
          (source.getManyDatasets dataset_ids)).map DatasetRef.id).toFinset
      · exact Or.inr hc
      · by_cases hf : x ∈ ((source.getManyDatasets dataset_ids).map
            DatasetRef.id).toFinset
        · exact Or.inl (Or.inr ⟨hf, hc⟩)
        · exact Or.inl (Or.inl ⟨hi, hf⟩)

/-- Witness for C10 at a concrete input: of the identifiers `[7, 2, 3]` the
source resolves 2 and 3, the target copies only 3; the classification is
`missing = {7, 2}`, `transferred = {3}`, a partition of the input. -/
theorem transfer_datasets_partition_witness :
    (((butlerMost.getManyDatasets [7, 2, 3]).map
        DatasetRef.id).toFinset ⊆ ([7, 2, 3] : List Nat).toFinset ∧
      ((targetMost.transferFrom
        (butlerMost.getManyDatasets [7, 2, 3])).map DatasetRef.id).toFinset ⊆
        ((butlerMost.getManyDatasets [7, 2, 3]).map
          DatasetRef.id).toFinset) ∧
    ((transfer_datasets butlerMost targetMost [7, 2, 3]).missing_datasets ∩
      (transfer_datasets butlerMost targetMost [7, 2, 3]).transferred_datasets
      = ∅ ∧
    (transfer_datasets butlerMost targetMost [7, 2, 3]).missing_datasets ∪
      (transfer_datasets butlerMost targetMost [7, 2, 3]).transferred_datasets
      = ([7, 2, 3] : List Nat).toFinset) :=
  ⟨⟨by decide, by decide⟩,
    transfer_datasets_partition butlerMost targetMost [7, 2, 3] (by decide)
      (by decide)⟩

/-! Lemmas about the status/time column setters of the `dataset` table. -/

theorem getStatus_setStatus_same (c : DatasetStatusColumn)
    (v : DatasetLocationStatus) (d : DatasetRow) :
    DatasetRow.getStatus c (DatasetRow.setStatus c v d) = v := by
  cases c <;> rfl

theorem getStatus_setStatus_ne (c c' : DatasetStatusColumn)
    (v : DatasetLocationStatus) (d : DatasetRow) (h : c' ≠ c) :
    DatasetRow.getStatus c (DatasetRow.setStatus c' v d) =
      DatasetRow.getStatus c d := by
  cases c <;> cases c' <;> first | exact absurd rfl h | rfl

theorem getStatus_setTime (c : DatasetStatusColumn) (tc : DatasetTimeColumn)
    (v : Option Int) (d : DatasetRow) :
    DatasetRow.getStatus c (DatasetRow.setTime tc v d) =
      DatasetRow.getStatus c d := by
  cases c <;> cases tc <;> rfl

theorem getTime_setTime_same (tc : DatasetTimeColumn) (v : Option Int)
    (d : DatasetRow) :
    DatasetRow.getTime tc (DatasetRow.setTime tc v d) = v := by
  cases tc <;> rfl

theorem getTime_setStatus (tc : DatasetTimeColumn) (c : DatasetStatusColumn)
    (v : DatasetLocationStatus) (d : DatasetRow) :
    DatasetRow.getTime tc (DatasetRow.setStatus c v d) =
      DatasetRow.getTime tc d := by
  cases tc <;> cases c <;> rfl

theorem id_setStatus (c : DatasetStatusColumn) (v : DatasetLocationStatus)
    (d : DatasetRow) : (DatasetRow.setStatus c v d).id = d.id := by
  cases c <;> rfl

theorem id_setTime (tc : DatasetTimeColumn) (v : Option Int)
    (d : DatasetRow) : (DatasetRow.setTime tc v d).id = d.id := by
  cases tc <;> rfl

/-- A sequence of bulk UPDATEs by primary key with an idempotent,
id-preserving row function is one map over the table. -/
theorem foldl_updateById_eq_map (f : DatasetRow → DatasetRow)
    (hf : ∀ d, f (f d) = f d) (hid : ∀ d, (f d).id = d.id)
    (ids : List Nat) (tbl : List DatasetRow) :
    ids.foldl (fun t i => updateById t i f) tbl =
      tbl.map (fun d => if d.id ∈ ids then f d else d) := by
  induction ids generalizing tbl with
  | nil => simp
  | cons i ids ih =>
    simp only [List.foldl_cons]
    rw [ih, updateById, List.map_map]
    have hfun : ((fun d => if d.id ∈ ids then f d else d) ∘
        (fun d => if d.id = i then f d else d)) =
        (fun d => if d.id ∈ i :: ids then f d else d) := by
      funext d
      by_cases hdi : d.id = i
      · by_cases hdm : d.id ∈ ids
        · simp [Function.comp, hdi, hdm, hid, hf]
        · simp [Function.comp, hdi, hdm, hid, hf]
      · by_cases hdm : d.id ∈ ids
        · simp [Function.comp, hdi, hdm]
        · simp [Function.comp, hdi, hdm]
    rw [hfun]

/-- C3: Reconciliation postcondition: after `_record_transfer_result`, the
`dataset` table still holds exactly the same row identifiers (rows are
updated in place, never deleted) and the other tables are untouched; every
dataset classified missing has its source-repository status column set to
MISSING, and every dataset classified transferred has its target-repository
status column set to PRESENT with the (non-null) transfer time stamped in
the release-time column. -/
theorem record_transfer_result_post (missing transferred : List Nat)
    (srcCol tgtCol : DatasetStatusColumn) (timeCol : DatasetTimeColumn)
    (t : Int) (s : LedgerState) (hcols : srcCol ≠ tgtCol) :
    (record_transfer_result missing transferred srcCol tgtCol timeCol t
        s).dataset.map DatasetRow.id = s.dataset.map DatasetRow.id ∧
    (record_transfer_result missing transferred srcCol tgtCol timeCol t
        s).visit = s.visit ∧
    (record_transfer_result missing transferred srcCol tgtCol timeCol t
        s).unknown_dataset = s.unknown_dataset ∧
    (∀ d ∈ (record_transfer_result missing transferred srcCol tgtCol timeCol
        t s).dataset,
      (d.id ∈ missing →
        DatasetRow.getStatus srcCol d = DatasetLocationStatus.MISSING) ∧
      (d.id ∈ transferred →
        DatasetRow.getStatus tgtCol d = DatasetLocationStatus.PRESENT ∧
        DatasetRow.getTime timeCol d = some t)) := by
  have hf1 : ∀ d, DatasetRow.setStatus srcCol DatasetLocationStatus.MISSING
      (DatasetRow.setStatus srcCol DatasetLocationStatus.MISSING d) =
      DatasetRow.setStatus srcCol DatasetLocationStatus.MISSING d := by
    intro d
    cases srcCol <;> rfl
  have hid1 : ∀ d, (DatasetRow.setStatus srcCol
      DatasetLocationStatus.MISSING d).id = d.id :=
    fun d => id_setStatus srcCol DatasetLocationStatus.MISSING d
  have hf2 : ∀ d, (fun d => DatasetRow.setTime timeCol (some t)
        (DatasetRow.setStatus tgtCol DatasetLocationStatus.PRESENT d))
      ((fun d => DatasetRow.setTime timeCol (some t)
        (DatasetRow.setStatus tgtCol DatasetLocationStatus.PRESENT d)) d) =
      (fun d => DatasetRow.setTime timeCol (some t)
        (DatasetRow.setStatus tgtCol DatasetLocationStatus.PRESENT d)) d := by
    intro d
    cases tgtCol <;> cases timeCol <;> rfl
  have hid2 : ∀ d, ((fun d => DatasetRow.setTime timeCol (some t)
      (DatasetRow.setStatus tgtCol DatasetLocationStatus.PRESENT d)) d).id =
      d.id := by
    intro d
    rw [id_setTime, id_setStatus]
  have hds : (record_transfer_result missing transferred srcCol tgtCol
      timeCol t s).dataset =
      (s.dataset.map (fun d => if d.id ∈ missing then
        DatasetRow.setStatus srcCol DatasetLocationStatus.MISSING d
        else d)).map (fun d => if d.id ∈ transferred then
          DatasetRow.setTime timeCol (some t)
            (DatasetRow.setStatus tgtCol DatasetLocationStatus.PRESENT d)
          else d) := by
    simp only [record_transfer_result]
    rw [foldl_updateById_eq_map _ hf1 hid1,
      foldl_updateById_eq_map _ hf2 hid2]
  refine ⟨?_, rfl, rfl, ?_⟩
  · rw [hds, List.map_map, List.map_map]
    have hcomp : ((DatasetRow.id ∘ (fun d => if d.id ∈ transferred then
        DatasetRow.setTime timeCol (some t)
          (DatasetRow.setStatus tgtCol DatasetLocationStatus.PRESENT d)
        else d)) ∘ (fun d => if d.id ∈ missing then
        DatasetRow.setStatus srcCol DatasetLocationStatus.MISSING d
        else d)) = DatasetRow.id := by
      funext d
      simp only [Function.comp]
      split <;> split <;> simp [id_setStatus, id_setTime]
    rw [hcomp]
  · intro d hd
    rw [hds] at hd
    rw [List.mem_map] at hd
    obtain ⟨d1, hd1, hd1eq⟩ := hd
    rw [List.mem_map] at hd1
    obtain ⟨d0, hd0, hd0eq⟩ := hd1
    have hdid : d.id = d0.id := by
      rw [← hd1eq, ← hd0eq]
      split <;> split <;> simp [id_setStatus, id_setTime]
    constructor
    · intro hmiss
      have hmiss0 : d0.id ∈ missing := by
        rw [← hdid]
        exact hmiss
      have hd1f : d1 = DatasetRow.setStatus srcCol
          DatasetLocationStatus.MISSING d0 := by
        rw [← hd0eq, if_pos hmiss0]
      have hsrc1 : DatasetRow.getStatus srcCol d1 =
          DatasetLocationStatus.MISSING := by
        rw [hd1f, getStatus_setStatus_same]
      rw [← hd1eq]
      split
      · rw [getStatus_setTime,
          getStatus_setStatus_ne srcCol tgtCol _ _ (Ne.symm hcols)]
        exact hsrc1
      · exact hsrc1
    · intro htrans
      have hd1id : d1.id = d.id := by
        rw [← hd1eq]
        split
        · rw [id_setTime, id_setStatus]
        · rfl
      have htrans1 : d1.id ∈ transferred := by
        rw [hd1id]
        exact htrans
      have hdf : d = DatasetRow.setTime timeCol (some t)
          (DatasetRow.setStatus tgtCol DatasetLocationStatus.PRESENT d1) := by
        rw [← hd1eq, if_pos htrans1]
      rw [hdf, getStatus_setTime, getStatus_setStatus_same,
        getTime_setTime_same]
      exact ⟨rfl, rfl⟩

/-- Witness for C3 at a concrete input: the batch `[1, 2, 3]` where 1 is
absent upstream, 2 unresolvable in storage (both classified missing) and 3
transferred: exactly two rows end with source-status MISSING and one with
target-status PRESENT and a non-null release time. -/
theorem record_transfer_result_post_witness :
    DatasetStatusColumn.embargo_status ≠
      DatasetStatusColumn.prompt_prep_status ∧
    ((record_transfer_result [1, 2] [3] DatasetStatusColumn.embargo_status
        DatasetStatusColumn.prompt_prep_status
        DatasetTimeColumn.unembargo_time 999 ledgerThree).dataset.map
        DatasetRow.id = ledgerThree.dataset.map DatasetRow.id ∧
      (record_transfer_result [1, 2] [3] DatasetStatusColumn.embargo_status
        DatasetStatusColumn.prompt_prep_status
        DatasetTimeColumn.unembargo_time 999 ledgerThree).visit =
        ledgerThree.visit ∧
      (record_transfer_result [1, 2] [3] DatasetStatusColumn.embargo_status
        DatasetStatusColumn.prompt_prep_status
        DatasetTimeColumn.unembargo_time 999 ledgerThree).unknown_dataset =
        ledgerThree.unknown_dataset ∧
      (∀ d ∈ (record_transfer_result [1, 2] [3]
          DatasetStatusColumn.embargo_status
          DatasetStatusColumn.prompt_prep_status
          DatasetTimeColumn.unembargo_time 999 ledgerThree).dataset,
        (d.id ∈ [1, 2] →
          DatasetRow.getStatus DatasetStatusColumn.embargo_status d =
            DatasetLocationStatus.MISSING) ∧
        (d.id ∈ [3] →
          DatasetRow.getStatus DatasetStatusColumn.prompt_prep_status d =
            DatasetLocationStatus.PRESENT ∧
          DatasetRow.getTime DatasetTimeColumn.unembargo_time d =
            some 999))) ∧
    ((record_transfer_result [1, 2] [3] DatasetStatusColumn.embargo_status
        DatasetStatusColumn.prompt_prep_status
        DatasetTimeColumn.unembargo_time 999 ledgerThree).dataset.filter
        (fun d => decide (DatasetRow.getStatus
          DatasetStatusColumn.embargo_status d =
            DatasetLocationStatus.MISSING))).length = 2 ∧
    ((record_transfer_result [1, 2] [3] DatasetStatusColumn.embargo_status
        DatasetStatusColumn.prompt_prep_status
        DatasetTimeColumn.unembargo_time 999 ledgerThree).dataset.filter
        (fun d => decide (DatasetRow.getStatus
          DatasetStatusColumn.prompt_prep_status d =
            DatasetLocationStatus.PRESENT ∧
          DatasetRow.getTime DatasetTimeColumn.unembargo_time d ≠
            none))).length = 1 :=
  ⟨by decide,
    record_transfer_result_post [1, 2] [3]
      DatasetStatusColumn.embargo_status
      DatasetStatusColumn.prompt_prep_status
      DatasetTimeColumn.unembargo_time 999 ledgerThree (by decide),
    by decide, by decide⟩

/-! Lemmas about the eligibility query. -/

theorem mem_findCandidates_iff (config : DatasetTypeConfiguration)
    (s : LedgerState) (now : Int) (i : Nat) :
    i ∈ findCandidates config s now ↔
      ∃ g ∈ group_by config (fun c => c.embargo_period_hours),
        ∃ d ∈ s.dataset, matchesGroupQuery s.visit now g d = true ∧
          d.id = i := by
  rw [findCandidates, List.mem_flatten]
  constructor
  · rintro ⟨l, hl, hil⟩
    rw [List.mem_map] at hl
    obtain ⟨g, hg, rfl⟩ := hl
    rw [List.mem_map] at hil
    obtain ⟨d, hd, hdi⟩ := hil
    rw [List.mem_filter] at hd
    exact ⟨g, hg, d, hd.1, hd.2, hdi⟩
  · rintro ⟨g, hg, d, hd, hpred, hdi⟩
    refine ⟨(s.dataset.filter (matchesGroupQuery s.visit now g)).map
      DatasetRow.id, ?_, ?_⟩
    · rw [List.mem_map]
      exact ⟨g, hg, rfl⟩
    · rw [List.mem_map]
      exact ⟨d, List.mem_filter.mpr ⟨hd, hpred⟩, hdi⟩

theorem length_findCandidates_le (config : DatasetTypeConfiguration)
    (s : LedgerState) (now : Int) :
    (findCandidates config s now).length ≤
      (group_by config (fun c => c.embargo_period_hours)).length *
        s.dataset.length := by
  rw [findCandidates, List.length_flatten _]
  have h1 : ∀ x ∈ ((group_by config (fun c => c.embargo_period_hours)).map
      (fun group => (s.dataset.filter (matchesGroupQuery s.visit now
        group)).map DatasetRow.id)).map List.length,
      x ≤ s.dataset.length := by
    intro x hx
    rw [List.mem_map] at hx
    obtain ⟨l, hl, rfl⟩ := hx
    rw [List.mem_map] at hl
    obtain ⟨g, hg, rfl⟩ := hl
    rw [List.length_map]
    exact List.length_filter_le _ _
  have h2 := List.sum_le_card_nsmul _ _ h1
  rw [List.length_map, List.length_map] at h2
  simpa [smul_eq_mul] using h2

/-- C5: Null-time exclusion: a dataset whose type carries a non-zero
embargo period and whose matching visit records all have a NULL end-time is
never in the release-candidate set, for any `now`: the inner join's
`Visit.time < now - embargo` comparison is never satisfied by NULL, and the
dataset is neither treated as immediately eligible nor as an error. -/
theorem null_time_exclusion (config : DatasetTypeConfiguration)
    (s : LedgerState) (d : DatasetRow) (hd : d ∈ s.dataset)
    (hnodup : (s.dataset.map DatasetRow.id).Nodup)
    (hemb : ∀ item, (d.dataset_type, item) ∈ config →
      0 < item.embargo_period_hours)
    (hnull : ∀ v ∈ s.visit, d.visit = some v.visit →
      d.instrument = some v.instrument → v.time = none)
    (now : Int) : d.id ∉ find_datasets_to_unembargo config s now := by
  intro hmem
  have hmem2 : d.id ∈ findCandidates config s now :=
    List.take_subset _ _ hmem
  rw [mem_findCandidates_iff] at hmem2
  obtain ⟨g, hg, d2, hd2, hpred, hid⟩ := hmem2
  have hdd : d2 = d := List.inj_on_of_nodup_map hnodup hd2 hd hid
  subst hdd
  simp only [matchesGroupQuery, Bool.and_eq_true, decide_eq_true_eq] at hpred
  obtain ⟨⟨⟨hty, hst1⟩, hst2⟩, hgate⟩ := hpred
  obtain ⟨item, hitem, hkey⟩ :=
    (mem_dataset_types_group_by config _ g hg _).mp hty
  have hpos : 0 < g.key := by
    rw [← hkey]
    exact hemb item hitem
  rw [if_pos hpos, List.any_eq_true] at hgate
  obtain ⟨v, hv, hvp⟩ := hgate
  simp only [Bool.and_eq_true, decide_eq_true_eq] at hvp
  obtain ⟨⟨hvv, hvi⟩, htime⟩ := hvp
  rw [hnull v hv hvv hvi] at htime
  cases htime

/-- Witness for C5 at a concrete input: dataset 4 of type `tyN` (embargo 5
hours) on a visit with NULL end-time is not a candidate at `now = 123456`. -/
theorem null_time_exclusion_witness :
    (mkDatasetRow 4 "tyN" (some "LSSTCam") (some 10) ∈
        ledgerNullTime.dataset ∧
      (ledgerNullTime.dataset.map DatasetRow.id).Nodup ∧
      (∀ item, ((mkDatasetRow 4 "tyN" (some "LSSTCam")
          (some 10)).dataset_type, item) ∈ cfgNullTime →
        0 < item.embargo_period_hours) ∧
      (∀ v ∈ ledgerNullTime.visit,
        (mkDatasetRow 4 "tyN" (some "LSSTCam") (some 10)).visit =
          some v.visit →
        (mkDatasetRow 4 "tyN" (some "LSSTCam") (some 10)).instrument =
          some v.instrument → v.time = none)) ∧
    (mkDatasetRow 4 "tyN" (some "LSSTCam") (some 10)).id ∉
      find_datasets_to_unembargo cfgNullTime ledgerNullTime 123456 :=
  ⟨⟨by decide, by decide,
    by
      intro item h
      simp only [cfgNullTime, List.mem_singleton, Prod.mk.injEq] at h
      rw [h.2]
      decide,
    by decide⟩,
    null_time_exclusion cfgNullTime ledgerNullTime
      (mkDatasetRow 4 "tyN" (some "LSSTCam") (some 10)) (by decide)
      (by decide)
      (by
        intro item h
        simp only [cfgNullTime, List.mem_singleton, Prod.mk.injEq] at h
        rw [h.2]
        decide)
      (by decide) 123456⟩

/-- C2: Eligibility time gate: in a ledger holding a visit with end-time
`T` and a freshly ingested dataset (source status PRESENT, intermediate
status NEVER_PRESENT) of a type with embargo_hours = 80 on that visit, the
dataset is excluded from the candidates computed at `now = T + 79h` and
included at `now = T + 81h`; a dataset of a type with embargo_hours = 0 is
included for every `now`, regardless of its visit time. -/
theorem eligibility_time_gate (T : Int) :
    1 ∉ find_datasets_to_unembargo cfgGate (ledgerGate T) (T + 79 * 3600) ∧
    1 ∈ find_datasets_to_unembargo cfgGate (ledgerGate T) (T + 81 * 3600) ∧
    ∀ now : Int, 2 ∈ find_datasets_to_unembargo cfgGate (ledgerGate T) now := by
  have hgroups : group_by cfgGate (fun c => c.embargo_period_hours) =
      [ConfigurationGroup.mk 80 ["ty80"], ConfigurationGroup.mk 0 ["ty0"]] :=
    by decide
  have htake : ∀ now : Int, find_datasets_to_unembargo cfgGate
      (ledgerGate T) now = findCandidates cfgGate (ledgerGate T) now := by
    intro now
    rw [find_datasets_to_unembargo]
    apply List.take_of_length_le
    have hb := length_findCandidates_le cfgGate (ledgerGate T) now
    rw [hgroups] at hb
    simp only [List.length_cons, List.length_nil, ledgerGate] at hb
    calc (findCandidates cfgGate (ledgerGate T) now).length
        ≤ 4 := by
          refine le_trans hb ?_
          norm_num [ledgerGate]
      _ ≤ MAX_DATASETS := by norm_num [MAX_DATASETS]
  refine ⟨?_, ?_, ?_⟩
  · rw [htake, mem_findCandidates_iff]
    rintro ⟨g, hg, d, hd, hpred, hid⟩
    rw [hgroups] at hg
    have hdl : d = mkDatasetRow 1 "ty80" (some "LSSTCam") (some 10) ∨
        d = mkDatasetRow 2 "ty0" (some "LSSTCam") (some 10) := by
      simpa [ledgerGate] using hd
    rcases List.mem_cons.mp hg with rfl | hg2
    · rcases hdl with rfl | rfl
      · simp only [matchesGroupQuery, ledgerGate, mkDatasetRow,
          Bool.and_eq_true, decide_eq_true_eq, List.any_cons,
          List.any_nil] at hpred
        rw [if_pos (by norm_num : (80 : Int) > 0)] at hpred
        simp only [Bool.or_false, Bool.and_eq_true,
          decide_eq_true_eq] at hpred
        omega
      · exact absurd hid (by decide)
    · rcases List.mem_cons.mp hg2 with rfl | hg3
      · rcases hdl with rfl | rfl
        · simp only [matchesGroupQuery, mkDatasetRow, Bool.and_eq_true,
            decide_eq_true_eq] at hpred
          have := hpred.1.1.1
          simp at this
        · exact absurd hid (by decide)
      · cases hg3
  · rw [htake, mem_findCandidates_iff]
    refine ⟨ConfigurationGroup.mk 80 ["ty80"],
      by rw [hgroups]; exact List.mem_cons_self _ _,
      mkDatasetRow 1 "ty80" (some "LSSTCam") (some 10),
      by simp [ledgerGate], ?_, rfl⟩
    simp only [matchesGroupQuery, ledgerGate, mkDatasetRow,
      Bool.and_eq_true, decide_eq_true_eq, List.any_cons, List.any_nil]
    rw [if_pos (by norm_num : (80 : Int) > 0)]
    simp only [Bool.or_false, Bool.and_eq_true, decide_eq_true_eq]
    refine ⟨⟨⟨by decide, by trivial⟩, by trivial⟩, ⟨by trivial, by trivial⟩, by omega⟩
  · intro now
    rw [htake, mem_findCandidates_iff]
    refine ⟨ConfigurationGroup.mk 0 ["ty0"],
      by rw [hgroups]; exact List.mem_cons_of_mem _ (List.mem_cons_self _ _),
      mkDatasetRow 2 "ty0" (some "LSSTCam") (some 10),
      by simp [ledgerGate], ?_, rfl⟩
    simp only [matchesGroupQuery, mkDatasetRow, Bool.and_eq_true,
      decide_eq_true_eq]
    rw [if_neg (by norm_num : ¬ (0 : Int) > 0)]
    exact ⟨⟨⟨by decide, by trivial⟩, by trivial⟩, by trivial⟩

end PromptPublication
